import Mathlib

/-!
Shallow embedding of the BBRef_Stats_Splits scraper (src/Main.py) and
verification of the specification claims against it.

Modelling conventions:
* HTML markup is embedded structurally: a `Soup` carries, per HTML comment,
  the `div.table_container` elements found when the comment text is re-parsed
  (src/Main.py lines 75-81), and the raw biography text fragments captured by
  the regex in `get_player_info` (lines 49-50).
* pandas DataFrames built from a list of lists are embedded as a rectangular
  grid of `Option String` cells (short rows padded with `none`, pandas NaN).
* `pd.to_numeric(errors='coerce')` is embedded by `parseNum`; numbers are
  exact decimals (`PyNum`), the idealization of the float64 values involved.
* Python exceptions are embedded as `Except PyError`; the constructors name
  the exception class the interpreter would raise at the embedded operation.
-/

namespace BBRef

/-- Python exception classes that the embedded code can raise.
`emptyResult` embeds the spec's `EmptyResultError`; the source never
constructs it (it exists so that claims about it can be stated). -/
inductive PyError
  | attrError
  | indexError
  | keyError
  | emptyResult
deriving DecidableEq, Repr

/-- One `<th>` or `<td>` cell of a table row: `isHeaderCell` is true for
`<th>`.  `BeautifulSoup.find_all('th')` keeps document order, so a row is a
list of cells in document order. -/
structure HtmlCell where
  isHeaderCell : Bool
  text : String
deriving DecidableEq, Repr

/-- A `<tr>` element: its cells in document order. -/
abbrev HtmlTr := List HtmlCell

/-- A `div.table_container` element as used by `get_splits`:
`caption` is the text of its first `<caption>` (absent when the table has no
caption, in which case `find_all('caption')[0]` raises IndexError), `trs` the
`<tr>` elements in document order (`find("tr")` is the first of them). -/
structure TableContainer where
  caption : Option String
  trs : List HtmlTr
deriving DecidableEq, Repr

/-- The parsed page (`bs.BeautifulSoup` result) as observed by the source:
`comments` holds, for each HTML comment node in document order, the table
containers found when that comment is re-parsed (lines 75-82);
`bioFragments` holds, for each `<p>` tag inside `div.players` blocks, the raw
text fragments captured by the regex `>(.*?)<` (lines 39-50). -/
structure Soup where
  comments : List (List TableContainer)
  bioFragments : List (List String)
deriving DecidableEq, Repr

/-- Python `s[-5:]` style suffix: the last `n` characters of `s`
(the whole string when it is shorter). -/
def lastN (s : String) (n : Nat) : String :=
  String.mk ((s.data.reverse.take n).reverse)

/-- Digits to a natural number (helper for `parseNum`). -/
def digitsToNat (l : List Char) : Nat :=
  l.foldl (fun a c => a * 10 + (c.toNat - 48)) 0

/-- An exact decimal number `mantissa / 10 ^ scale`: the idealization of the
float64 values `pd.to_numeric` produces (the pipeline only parses decimal
literals and subtracts them, which stays inside exact decimal
arithmetic). -/
structure PyNum where
  mantissa : Int
  scale : Nat
deriving DecidableEq, Repr

/-- Subtraction of exact decimals (aligning to the larger scale), as in
`data['H'] - data['2B']` on line 135. -/
def PyNum.sub (a b : PyNum) : PyNum :=
  let s := max a.scale b.scale
  ⟨a.mantissa * (10 : Int) ^ (s - a.scale) - b.mantissa * (10 : Int) ^ (s - b.scale), s⟩

/-- Embeds the set of strings `pd.to_numeric` converts (decimal integers and
decimals, optionally signed); every other string raises there, which
`errors='coerce'` turns into NaN (`none` here). -/
def parseNum (s : String) : Option PyNum :=
  let l := s.data
  let sgn : Int := if l.head? = some '-' then -1 else 1
  let l := if l.head? = some '-' ∨ l.head? = some '+' then l.drop 1 else l
  let intPart := l.takeWhile Char.isDigit
  let rest := l.dropWhile Char.isDigit
  match rest with
  | [] => if intPart.isEmpty then none else some ⟨sgn * (digitsToNat intPart : Int), 0⟩
  | '.' :: frac =>
    if frac.all Char.isDigit ∧ ¬ (intPart.isEmpty ∧ frac.isEmpty) then
      some ⟨sgn * ((digitsToNat intPart : Int) * (10 : Int) ^ frac.length +
        (digitsToNat frac : Int)), frac.length⟩
    else none
  | _ => none

/-- Python `str.strip()`: whitespace removed from both ends. -/
def pyStrip (s : String) : String :=
  String.mk (((s.data.dropWhile Char.isWhitespace).reverse.dropWhile
    Char.isWhitespace).reverse)

/-! ## Fetcher (src/Main.py lines 12-18) -/

/-- The URL built by `get_split_soup` (line 15). -/
def buildUrl (playerid : String) (year : Option Int) (pitching_splits : Bool) : String :=
  let pitch_or_bat := if pitching_splits then "p" else "b"
  let str_year := match year with
    | none => "Career"
    | some y => toString y
  "https://www.baseball-reference.com/players/split.fcgi?id=" ++ playerid ++
    "&year=" ++ str_year ++ "&t=" ++ pitch_or_bat

/-- An HTTP response as the transport delivers it: a status code and the
response body (already parsed into a `Soup`, standing for
`BeautifulSoup(resp.text, 'lxml')`). -/
structure HttpResponse where
  status : Nat
  body : Soup
deriving DecidableEq, Repr

/-- Embeds `get_split_soup` (lines 12-18): builds the URL, issues
`session.get(url)`, and parses `".text"` of whatever comes back.  The source
never inspects the response status (`requests` does not raise on 4xx/5xx and
no `raise_for_status` call exists), and a transport-level exception from
`session.get` propagates to the caller unwrapped. -/
def get_split_soup (transport : String → Except String HttpResponse)
    (playerid : String) (year : Option Int) (pitching_splits : Bool) :
    Except String Soup :=
  match transport (buildUrl playerid year pitching_splits) with
  | .ok resp => .ok resp.body
  | .error e => .error e

/-- The observable operations a fetch can perform, for stating timing
properties: an HTTP GET, a thread suspension of a given number of seconds,
and markup parsing. -/
inductive FetchStep
  | httpGet (url : String)
  | sleepFor (seconds : Nat)
  | parse
deriving DecidableEq, Repr

/-- The operation trace of one `get_split_soup` call, line by line
(lines 13-18): build the URL (pure), `session.get(url)`, parse.  The function
body contains no timestamp read and no sleep, and the only module-level state
(line 8) is a `requests.Session`, which holds no rate-limiting state. -/
def get_split_soup_steps (playerid : String) (year : Option Int)
    (pitching_splits : Bool) : List FetchStep :=
  [FetchStep.httpGet (buildUrl playerid year pitching_splits), FetchStep.parse]

/-- Total thread-suspension time a trace mandates. -/
def mandatedSleep (steps : List FetchStep) : Nat :=
  (steps.map (fun s => match s with
    | FetchStep.sleepFor n => n
    | _ => 0)).sum

/-- Total mandated suspension across `n` consecutive `get_split_soup` calls
with the same arguments: the lower bound the code imposes on the end-to-end
duration beyond network time. -/
def consecutiveFetchSleep (playerid : String) (year : Option Int)
    (pitching_splits : Bool) (n : Nat) : Nat :=
  mandatedSleep (List.flatten (List.replicate n
    (get_split_soup_steps playerid year pitching_splits)))

/-! ## Player info extractor (src/Main.py lines 32-65) -/

/-- Embeds `re.compile(r'[\W_]+').sub(' ', r)` (lines 53-54): every maximal
run of non-alphanumeric-or-underscore characters is replaced by one space. -/
def cleanFragment (s : String) : String :=
  String.mk (s.data.foldr
    (fun c acc =>
      if c.isAlphanum ∧ c ≠ '_' then c :: acc
      else if acc.head? = some ' ' then acc else ' ' :: acc)
    [])

/-- The surviving fragment list `fv` (lines 42-56): every regex capture of
every `<p>` tag, cleaned, kept when non-empty and not equal to `" "`. -/
def fvOf (bioFragments : List (List String)) : List String :=
  ((bioFragments.flatten).map cleanFragment).filter (fun s => s ≠ "" ∧ s ≠ " ")

/-- The record returned by `get_player_info` (lines 57-64). -/
structure PlayerInfo where
  Position : String
  Bats : String
  Throws : String
deriving DecidableEq, Repr

/-- Embeds `get_player_info` (lines 32-65): builds `fv` from the biography
fragments and indexes it at positions 1, 3, 5 with plain Python indexing,
which raises IndexError when `fv` has fewer than 6 elements. -/
def get_player_info (soup : Soup) : Except PyError PlayerInfo :=
  let fv := fvOf soup.bioFragments
  match fv.get? 1, fv.get? 3, fv.get? 5 with
  | some p, some b, some t => .ok ⟨p, b, t⟩
  | _, _, _ => .error .indexError

/-! ## Table scraping loop (src/Main.py lines 79-126) -/

/-- `splits[j].find_all('caption')[0].string.strip()` (line 86): IndexError
when the container has no caption. -/
def captionText (t : TableContainer) : Except PyError String :=
  match t.caption with
  | none => .error .indexError
  | some s => .ok (pyStrip s)

/-- The header cell texts of a table:
`[th.get_text() for th in splits[j].find("tr").find_all("th")]`, sliced
`[1:]` when `year == None` (career page) and `[:]` otherwise
(lines 88-91 and 108-111).  `find("tr")` on a table with no `<tr>` returns
`None`, so `.find_all` on it raises AttributeError. -/
def tableHeadings (year : Option Int) (t : TableContainer) :
    Except PyError (List String) :=
  match t.trs.head? with
  | none => .error .attrError
  | some tr =>
    let ths := (tr.filter (fun c => c.isHeaderCell)).map (fun c => c.text)
    .ok (if year.isNone then ths.drop 1 else ths)

/-- A raw row accumulated into `raw_data` / `raw_level_data`. -/
abbrev RawRow := List String

/-- The rows one table container contributes to its target list
(lines 88-106 for the level branch, 108-126 for the aggregate branch; the two
branches are textually identical apart from the target list): the headings
row extended with `'Split Type'`, `'Player ID'`, `'1B'` is always appended
first; then every `<tr>` of the table yields its cell texts (only `<td>`
cells on the career page, `<th>` and `<td>` cells on a season page),
stripped, extended with the split type and player id — except that when the
caption is exactly `"By Inning"` no `<tr>`-derived row is appended. -/
def tableContribution (year : Option Int) (playerid : String)
    (split_type : String) (t : TableContainer) :
    Except PyError (List RawRow) := do
  let hs ← tableHeadings year t
  let headings := hs ++ ["Split Type", "Player ID", "1B"]
  let trRows := t.trs.filterMap (fun tr =>
    let cells := if year.isNone then tr.filter (fun c => ¬ c.isHeaderCell) else tr
    let cols := cells.map (fun c => pyStrip c.text)
    if split_type ≠ "By Inning" then some (cols ++ [split_type, playerid])
    else none)
  pure (headings :: trRows)

/-- The double loop of lines 79-126 over the flattened sequence of table
containers: each container's contribution is appended to `raw_level_data`
when its stripped caption ends in `"Level"` (`split_type[-5:] == 'Level'`,
line 87) and to `raw_data` otherwise.  Returns `(raw_data,
raw_level_data)`. -/
def scrapeTables (year : Option Int) (playerid : String) :
    List TableContainer → Except PyError (List RawRow × List RawRow)
  | [] => .ok ([], [])
  | t :: ts =>
    match captionText t with
    | .error e => .error e
    | .ok split_type =>
      match tableContribution year playerid split_type t with
      | .error e => .error e
      | .ok rows =>
        match scrapeTables year playerid ts with
        | .error e => .error e
        | .ok (a, l) =>
          if lastN split_type 5 = "Level" then .ok (a, rows ++ l)
          else .ok (rows ++ a, l)

/-- Lines 79-82: the comment loop visits the containers of each comment in
order, which is iteration over the concatenation. -/
def scrapeSoup (year : Option Int) (playerid : String) (soup : Soup) :
    Except PyError (List RawRow × List RawRow) :=
  scrapeTables year playerid soup.comments.flatten

/-! ## pandas pipeline (src/Main.py lines 128-136 and 139-146)

A DataFrame built from a list of uneven rows is a rectangular grid whose
width is the longest row, short rows padded with NaN (`none`). -/

/-- Pad a raw row with `none` (NaN) cells up to the frame width. -/
def padTo (w : Nat) (r : RawRow) : List (Option String) :=
  r.map some ++ List.replicate (w - r.length) none

/-- The width `pd.DataFrame` gives a list of uneven rows. -/
def maxWidth (rows : List RawRow) : Nat :=
  rows.foldl (fun a r => max a r.length) 0

/-- The frame after lines 128-130: column labels renamed to the cells of the
first raw row (`rename(columns=data.iloc[0])`; positions the first row does
not cover keep a NaN label), first row dropped from the data
(`reindex(data.index.drop(0))`). -/
structure RawFrame where
  labels : List (Option String)
  rows : List (List (Option String))
deriving DecidableEq, Repr

/-- Lines 128-130.  `data.iloc[0]` on a frame built from an empty list raises
IndexError. -/
def mkFrame (raw : List RawRow) : Except PyError RawFrame :=
  match raw with
  | [] => .error .indexError
  | r0 :: rest =>
    let w := maxWidth raw
    .ok ⟨padTo w r0, rest.map (padTo w)⟩

/-- The position of the first column carrying a given label
(`data[name]` / label lookup). -/
def findCol (labels : List (Option String)) (name : String) : Option Nat :=
  labels.findIdx? (fun l => l = some name)

/-- Cell of a padded row at a column position (out of range only for ragged
data; the pipeline keeps rows exactly as wide as `labels`). -/
def cellAt (r : List (Option String)) (i : Nat) : Option String :=
  r.getD i none

/-- A frame after `set_index(['Player ID', 'Split Type', 'Split'])`: each row
keyed by its (player id, split type, split) triple, those three columns
removed from the data columns. -/
structure IndexedFrame where
  labels : List (Option String)
  rows : List ((Option String × Option String × Option String) × List (Option String))
deriving DecidableEq, Repr

/-- Remove the three index positions from a row or label list, keeping
order. -/
def removeIdx3 (ip it isp : Nat) (r : List (Option String)) : List (Option String) :=
  (r.enum.filter (fun p => p.1 ≠ ip ∧ p.1 ≠ it ∧ p.1 ≠ isp)).map (fun p => p.2)

/-- Line 131, `set_index(['Player ID', 'Split Type', 'Split'])`: KeyError
when any of the three labels is absent.  Duplicate labels do not arise from
the appended bookkeeping columns; lookup takes the first occurrence. -/
def setIndex3 (f : RawFrame) : Except PyError IndexedFrame :=
  match findCol f.labels "Player ID", findCol f.labels "Split Type",
      findCol f.labels "Split" with
  | some ip, some it, some isp =>
    .ok ⟨removeIdx3 ip it isp f.labels,
      f.rows.map (fun r => ((cellAt r ip, cellAt r it, cellAt r isp),
        removeIdx3 ip it isp r))⟩
  | _, _, _ => .error .keyError

/-- Line 132, `drop(index=['Split'], level=2)`: drops every row whose
level-2 index label (the `Split` column) is the string `"Split"` — the
header rows repeated per category — and raises KeyError when no such row
exists (`errors='raise'` is the default). -/
def dropSplitRows (f : IndexedFrame) : Except PyError IndexedFrame :=
  if f.rows.any (fun r => r.1.2.2 = some "Split") then
    .ok ⟨f.labels, f.rows.filter (fun r => ¬ r.1.2.2 = some "Split")⟩
  else .error .keyError

/-- A frame after `apply(pd.to_numeric, errors='coerce')`: every cell is a
number or NA. -/
structure NumFrame where
  labels : List (Option String)
  rows : List ((Option String × Option String × Option String) × List (Option PyNum))
deriving DecidableEq, Repr

/-- Line 133: every cell of every column is independently converted;
non-numeric and empty values become NA (`convert_dtypes` does not change
values). -/
def coerceFrame (f : IndexedFrame) : NumFrame :=
  ⟨f.labels, f.rows.map (fun r => (r.1, r.2.map (fun c => c.bind parseNum)))⟩

/-- Line 134, `dropna(axis=1, how='all')`: the column positions that keep at
least one non-NA cell. -/
def keptCols (f : NumFrame) : List Nat :=
  (List.range f.labels.length).filter
    (fun j => f.rows.any (fun r => (r.2.getD j none).isSome))

/-- Line 134: drop every column whose cells are all NA. -/
def dropEmptyCols (f : NumFrame) : NumFrame :=
  let keep := keptCols f
  ⟨keep.map (fun j => f.labels.getD j none),
    f.rows.map (fun r => (r.1, keep.map (fun j => r.2.getD j none)))⟩

/-- The value `data['H'] - data['2B'] - data['3B'] - data['HR']` takes on one
row (line 135): pandas NA propagates through subtraction. -/
def compute1B (ih i2 i3 ihr : Nat) (cells : List (Option PyNum)) : Option PyNum := do
  let h ← cells.getD ih none
  let d ← cells.getD i2 none
  let t ← cells.getD i3 none
  let hr ← cells.getD ihr none
  pure (((h.sub d).sub t).sub hr)

/-- Line 135, `data['1B'] = data['H'] - data['2B'] - data['3B'] - data['HR']`:
KeyError when any of the four source columns is absent (the first one missing
raises first; the error kind is the same).  Assignment replaces the cells of
every existing column labeled `'1B'`, or appends a new `'1B'` column when
none exists. -/
def add1B (f : NumFrame) : Except PyError NumFrame :=
  match findCol f.labels "H", findCol f.labels "2B", findCol f.labels "3B",
      findCol f.labels "HR" with
  | some ih, some i2, some i3, some ihr =>
    if (findCol f.labels "1B").isSome then
      .ok ⟨f.labels, f.rows.map (fun r =>
        (r.1, (f.labels.zip r.2).map (fun p =>
          if p.1 = some "1B" then compute1B ih i2 i3 ihr r.2 else p.2)))⟩
    else
      .ok ⟨f.labels ++ [some "1B"], f.rows.map (fun r =>
        (r.1, r.2 ++ [compute1B ih i2 i3 ihr r.2]))⟩
  | _, _, _, _ => .error .keyError

/-- The final frame after `.loc[playerid]`: the player-id level is consumed,
rows keyed by (split type, split). -/
structure OutFrame where
  labels : List (Option String)
  rows : List ((Option String × Option String) × List (Option PyNum))
deriving DecidableEq, Repr

/-- Line 136 / 146, `.loc[playerid]`: keeps the rows whose level-0 index
equals the player id, dropping that level; KeyError when no row matches. -/
def locPid (playerid : String) (f : NumFrame) : Except PyError OutFrame :=
  if f.rows.any (fun r => r.1.1 = some playerid) then
    .ok ⟨f.labels, (f.rows.filter (fun r => r.1.1 = some playerid)).map
      (fun r => ((r.1.2.1, r.1.2.2), r.2))⟩
  else .error .keyError

/-- Lines 128-136: the aggregate-table pipeline applied to `raw_data`. -/
def assembleData (playerid : String) (raw : List RawRow) :
    Except PyError OutFrame := do
  let f ← mkFrame raw
  let g ← setIndex3 f
  let g ← dropSplitRows g
  let n := dropEmptyCols (coerceFrame g)
  let n ← add1B n
  locPid playerid n

/-- Lines 139-146: the level-table pipeline applied to `raw_level_data`;
identical to the aggregate pipeline except that no `'1B'` column is
computed. -/
def assembleLevel (playerid : String) (raw : List RawRow) :
    Except PyError OutFrame := do
  let f ← mkFrame raw
  let g ← setIndex3 f
  let g ← dropSplitRows g
  let n := dropEmptyCols (coerceFrame g)
  locPid playerid n

/-! ## get_splits (src/Main.py lines 68-158) -/

/-- The value `get_splits` returns: the union type
`DataFrame | (DataFrame, DataFrame) | (DataFrame, Dict) |
(DataFrame, Dict, DataFrame)` of lines 148-158, one constructor per tuple
shape, fields in the source's tuple order. -/
inductive SplitsResult
  | one (data : OutFrame)
  | withLevel (data : OutFrame) (level : OutFrame)
  | withInfo (data : OutFrame) (info : PlayerInfo)
  | withInfoLevel (data : OutFrame) (info : PlayerInfo) (level : OutFrame)
deriving DecidableEq, Repr

/-- The `(player_info, pitching_splits)` flag pair a result shape encodes. -/
def shapeOf : SplitsResult → Bool × Bool
  | .one _ => (false, false)
  | .withLevel _ _ => (false, true)
  | .withInfo _ _ => (true, false)
  | .withInfoLevel _ _ _ => (true, true)

/-- Embeds `get_splits` (lines 68-158) given an already fetched page: scrape
the comment-embedded tables (79-126), assemble the aggregate table (128-136),
assemble the level table only when `pitching_splits` (138-146), extract the
player info only when `player_info` (154), and return the tuple shape of
lines 148-158. -/
def get_splits (playerid : String) (year : Option Int)
    (player_info pitching_splits : Bool) (soup : Soup) :
    Except PyError SplitsResult := do
  let (raw, rawLevel) ← scrapeSoup year playerid soup
  let data ← assembleData playerid raw
  if pitching_splits then
    let level ← assembleLevel playerid rawLevel
    if player_info then
      let info ← get_player_info soup
      pure (.withInfoLevel data info level)
    else
      pure (.withLevel data level)
  else
    if player_info then
      let info ← get_player_info soup
      pure (.withInfo data info)
    else
      pure (.one data)

/-! ## Concrete pages used to settle the claims -/

/-- An empty page: no comment-embedded tables, no biography. -/
def c1soup : Soup := ⟨[], []⟩

/-- A transport whose every response is HTTP 404 with `c1soup` as body. -/
def c1transport404 : String → Except String HttpResponse :=
  fun _ => .ok ⟨404, c1soup⟩

/-- A transport whose every response is HTTP 500. -/
def c1transport500 : String → Except String HttpResponse :=
  fun _ => .ok ⟨500, c1soup⟩

/-- Header row `<th>Split</th><th>H</th><th>2B</th><th>3B</th><th>HR</th>`. -/
def c3headerTr : HtmlTr :=
  [⟨true, "Split"⟩, ⟨true, "H"⟩, ⟨true, "2B"⟩, ⟨true, "3B"⟩, ⟨true, "HR"⟩]

/-- A well-formed data row: 5 cells, matching the 5-cell header. -/
def c3goodTr : HtmlTr :=
  [⟨false, "Home"⟩, ⟨false, "4"⟩, ⟨false, "1"⟩, ⟨false, "0"⟩, ⟨false, "1"⟩]

/-- A malformed data row: 7 cells against a 5-cell header (the 7th cell text
happens to equal the requested player id). -/
def c3badTr : HtmlTr :=
  [⟨false, "Away"⟩, ⟨false, "5"⟩, ⟨false, "1"⟩, ⟨false, "0"⟩, ⟨false, "1"⟩,
   ⟨false, "zz"⟩, ⟨false, "p1"⟩]

def c3table : TableContainer := ⟨some "Home", [c3headerTr, c3goodTr, c3badTr]⟩

def c3soup : Soup := ⟨[[c3table]], []⟩

/-- The `raw_data` the scrape loop produces for `c3soup` on a season page. -/
def c3raw : List RawRow :=
  [["Split", "H", "2B", "3B", "HR", "Split Type", "Player ID", "1B"],
   ["Split", "H", "2B", "3B", "HR", "Home", "p1"],
   ["Home", "4", "1", "0", "1", "Home", "p1"],
   ["Away", "5", "1", "0", "1", "zz", "p1", "Home", "p1"]]

/-- A table with a mixed-content `Notes` column: `abc` in one row, `5` in the
other. -/
def c4table : TableContainer :=
  ⟨some "Home",
   [[⟨true, "Split"⟩, ⟨true, "H"⟩, ⟨true, "2B"⟩, ⟨true, "3B"⟩, ⟨true, "HR"⟩,
     ⟨true, "Notes"⟩],
    [⟨false, "Home"⟩, ⟨false, "1"⟩, ⟨false, "0"⟩, ⟨false, "0"⟩, ⟨false, "0"⟩,
     ⟨false, "abc"⟩],
    [⟨false, "Away"⟩, ⟨false, "2"⟩, ⟨false, "0"⟩, ⟨false, "0"⟩, ⟨false, "0"⟩,
     ⟨false, "5"⟩]]⟩

def c4soup : Soup := ⟨[[c4table]], []⟩

/-- A table whose header has no `HR` column at all. -/
def c5table : TableContainer :=
  ⟨some "Home",
   [[⟨true, "Split"⟩, ⟨true, "H"⟩, ⟨true, "2B"⟩, ⟨true, "3B"⟩],
    [⟨false, "Home"⟩, ⟨false, "1"⟩, ⟨false, "0"⟩, ⟨false, "0"⟩]]⟩

def c5soup : Soup := ⟨[[c5table]], []⟩

/-- Raw data with all four of `H`, `2B`, `3B`, `HR` present, one row fully
numeric and one with a non-numeric `H`. -/
def c5wraw : List RawRow :=
  [["Split", "H", "2B", "3B", "HR", "Split Type", "Player ID", "1B"],
   ["Split", "H", "2B", "3B", "HR", "Home", "p1"],
   ["Home", "4", "1", "0", "2", "Home", "p1"],
   ["Away", "x", "1", "0", "2", "Home", "p1"]]

def c6homeTable : TableContainer :=
  ⟨some "Home",
   [[⟨true, "Split"⟩, ⟨true, "H"⟩, ⟨true, "2B"⟩, ⟨true, "3B"⟩, ⟨true, "HR"⟩],
    [⟨false, "Home"⟩, ⟨false, "3"⟩, ⟨false, "1"⟩, ⟨false, "0"⟩, ⟨false, "0"⟩]]⟩

/-- A `By Inning` table whose header row's first cell is `Inning`. -/
def c6inningTable : TableContainer :=
  ⟨some "By Inning",
   [[⟨true, "Inning"⟩, ⟨true, "H"⟩, ⟨true, "2B"⟩, ⟨true, "3B"⟩, ⟨true, "HR"⟩],
    [⟨false, "1st"⟩, ⟨false, "9"⟩, ⟨false, "2"⟩, ⟨false, "1"⟩, ⟨false, "1"⟩]]⟩

def c6soup : Soup := ⟨[[c6homeTable, c6inningTable]], []⟩

/-- An aggregate (non-`Level`) table for the routing claim. -/
def c7aggTable : TableContainer :=
  ⟨some "Home",
   [[⟨true, "Split"⟩, ⟨true, "H"⟩, ⟨true, "2B"⟩, ⟨true, "3B"⟩, ⟨true, "HR"⟩],
    [⟨false, "Home"⟩, ⟨false, "3"⟩, ⟨false, "1"⟩, ⟨false, "0"⟩, ⟨false, "0"⟩]]⟩

/-- A `Level` table (caption ends in `"Level"`). -/
def c7levelTable : TableContainer :=
  ⟨some "Game Level",
   [[⟨true, "Split"⟩, ⟨true, "H"⟩],
    [⟨false, "Aaa"⟩, ⟨false, "7"⟩]]⟩

def c7soup : Soup := ⟨[[c7aggTable, c7levelTable]], []⟩

/-- A biography with only two surviving fragments. -/
def c8soup : Soup := ⟨[], [["ab", "cd"]]⟩

/-- A biography with six surviving fragments. -/
def c8soupW : Soup := ⟨[], [["A", "B", "C", "D", "E", "F"]]⟩

/-- A page with no comment-embedded tables at all. -/
def c9soup : Soup := ⟨[], []⟩

/-- A page whose comments, once re-parsed, contain no table containers. -/
def c9soupW : Soup := ⟨[[], []], []⟩

def c10aggTable : TableContainer :=
  ⟨some "Home",
   [[⟨true, "Split"⟩, ⟨true, "H"⟩, ⟨true, "2B"⟩, ⟨true, "3B"⟩, ⟨true, "HR"⟩],
    [⟨false, "Home"⟩, ⟨false, "3"⟩, ⟨false, "1"⟩, ⟨false, "0"⟩, ⟨false, "0"⟩]]⟩

def c10levelTable : TableContainer :=
  ⟨some "Game Level",
   [[⟨true, "Split"⟩, ⟨true, "H"⟩],
    [⟨false, "Aaa"⟩, ⟨false, "7"⟩]]⟩

/-- A fully well-formed pitching page with a biography. -/
def c10soup : Soup :=
  ⟨[[c10aggTable, c10levelTable]], [["A", "B", "C", "D", "E", "F"]]⟩

/-- The aggregate table `get_splits` returns for `c3soup`: the second output
row is the malformed 7-cell row. -/
def c3out : OutFrame :=
  ⟨[some "H", some "2B", some "3B", some "HR", some "1B"],
   [((some "Home", some "Home"),
     [some ⟨4, 0⟩, some ⟨1, 0⟩, some ⟨0, 0⟩, some ⟨1, 0⟩, some ⟨2, 0⟩]),
    ((some "zz", some "Away"),
     [some ⟨5, 0⟩, some ⟨1, 0⟩, some ⟨0, 0⟩, some ⟨1, 0⟩, some ⟨3, 0⟩])]⟩

/-- The rectangular frame `pd.DataFrame` builds from `c3raw` after the
rename/reindex of lines 129-130 (width 9, short rows padded with NaN). -/
def c3frame : RawFrame :=
  ⟨[some "Split", some "H", some "2B", some "3B", some "HR",
    some "Split Type", some "Player ID", some "1B", none],
   [[some "Split", some "H", some "2B", some "3B", some "HR", some "Home",
     some "p1", none, none],
    [some "Home", some "4", some "1", some "0", some "1", some "Home",
     some "p1", none, none],
    [some "Away", some "5", some "1", some "0", some "1", some "zz",
     some "p1", some "Home", some "p1"]]⟩

/-- The aggregate table `get_splits` returns for `c4soup`. -/
def c4out : OutFrame :=
  ⟨[some "H", some "2B", some "3B", some "HR", some "Notes", some "1B"],
   [((some "Home", some "Home"),
     [some ⟨1, 0⟩, some ⟨0, 0⟩, some ⟨0, 0⟩, some ⟨0, 0⟩, none, some ⟨1, 0⟩]),
    ((some "Home", some "Away"),
     [some ⟨2, 0⟩, some ⟨0, 0⟩, some ⟨0, 0⟩, some ⟨0, 0⟩, some ⟨5, 0⟩,
      some ⟨2, 0⟩])]⟩

/-- The aggregate table assembled from `c5wraw`. -/
def c5wout : OutFrame :=
  ⟨[some "H", some "2B", some "3B", some "HR", some "1B"],
   [((some "Home", some "Home"),
     [some ⟨4, 0⟩, some ⟨1, 0⟩, some ⟨0, 0⟩, some ⟨2, 0⟩, some ⟨1, 0⟩]),
    ((some "Home", some "Away"),
     [none, some ⟨1, 0⟩, some ⟨0, 0⟩, some ⟨2, 0⟩, none])]⟩

/-- The aggregate table `get_splits` produces for `c6soup` when the player
id is the string `"Player ID"`: the second row is the `By Inning` header
row. -/
def c6out : OutFrame :=
  ⟨[some "H", some "2B", some "3B", some "HR", some "1B"],
   [((some "Home", some "Home"),
      [some ⟨3, 0⟩, some ⟨1, 0⟩, some ⟨0, 0⟩, some ⟨0, 0⟩, some ⟨2, 0⟩]),
    ((some "Split Type", some "Inning"), [none, none, none, none, none])]⟩

/-- The `raw_data` list `scrapeTables` produces for the two `c7` tables. -/
def c7A : List RawRow :=
  [["Split", "H", "2B", "3B", "HR", "Split Type", "Player ID", "1B"],
   ["Split", "H", "2B", "3B", "HR", "Home", "p1"],
   ["Home", "3", "1", "0", "0", "Home", "p1"]]

/-- The `raw_level_data` list `scrapeTables` produces for the two `c7`
tables. -/
def c7L : List RawRow :=
  [["Split", "H", "Split Type", "Player ID", "1B"],
   ["Split", "H", "Game Level", "p1"],
   ["Aaa", "7", "Game Level", "p1"]]

/-- The batting result `get_splits` returns on `c7soup`. -/
def c7res : SplitsResult :=
  .one ⟨[some "H", some "2B", some "3B", some "HR", some "1B"],
    [((some "Home", some "Home"),
      [some ⟨3, 0⟩, some ⟨1, 0⟩, some ⟨0, 0⟩, some ⟨0, 0⟩, some ⟨2, 0⟩])]⟩

/-! ## Helper lemmas -/

/-- Decidable equality of `Except` values (not provided by core). -/
instance exceptDecEq {ε α : Type} [DecidableEq ε] [DecidableEq α] :
    DecidableEq (Except ε α)
  | .ok a, .ok b =>
    if h : a = b then isTrue (by rw [h])
    else isFalse (by intro hc; cases hc; exact h rfl)
  | .ok _, .error _ => isFalse (by intro hc; cases hc)
  | .error _, .ok _ => isFalse (by intro hc; cases hc)
  | .error e, .error f =>
    if h : e = f then isTrue (by rw [h])
    else isFalse (by intro hc; cases hc; exact h rfl)

/-- Unfolding `findCol`: the found position is in range and carries the
label. -/
theorem findCol_spec {labels : List (Option String)} {name : String} {i : Nat}
    (h : findCol labels name = some i) :
    i < labels.length ∧ labels.getD i none = some name := by
  unfold findCol at h
  rw [List.findIdx?_eq_some_iff_getElem] at h
  obtain ⟨hi, hp, -⟩ := h
  refine ⟨hi, ?_⟩
  rw [List.getD_eq_getElem?_getD, List.getElem?_eq_getElem hi]
  simpa using hp

/-- Inversion of a successful `setIndex3`: the three labels were found and
the result re-keys every row by the cells at the found positions. -/
theorem setIndex3_ok_inv {f : RawFrame} {g : IndexedFrame}
    (h : setIndex3 f = .ok g) :
    ∃ ip it isp, findCol f.labels "Player ID" = some ip ∧
      findCol f.labels "Split Type" = some it ∧
      findCol f.labels "Split" = some isp ∧
      g = ⟨removeIdx3 ip it isp f.labels,
        f.rows.map (fun r => ((cellAt r ip, cellAt r it, cellAt r isp),
          removeIdx3 ip it isp r))⟩ := by
  unfold setIndex3 at h
  split at h
  · rename_i ip it isp hip hit hisp
    exact ⟨ip, it, isp, hip, hit, hisp, (Except.ok.inj h).symm⟩
  · exact Except.noConfusion h

/-- Inversion of a successful `dropSplitRows`: the result keeps the labels
and filters out exactly the rows whose `Split` index is `"Split"`. -/
theorem dropSplitRows_ok_inv {g g2 : IndexedFrame}
    (h : dropSplitRows g = .ok g2) :
    g2 = ⟨g.labels, g.rows.filter (fun r => ¬ r.1.2.2 = some "Split")⟩ := by
  unfold dropSplitRows at h
  split at h
  · exact (Except.ok.inj h).symm
  · exact Except.noConfusion h

/-- A successful `add1B` maps the rows one-to-one, preserving each row's
index triple. -/
theorem add1B_rows_inv {n n3 : NumFrame} (h : add1B n = .ok n3) :
    ∃ φ : ((Option String × Option String × Option String) ×
        List (Option PyNum)) → List (Option PyNum),
      n3.rows = n.rows.map (fun r => (r.1, φ r)) := by
  unfold add1B at h
  split at h
  · rename_i ih i2 i3 ihr hH h2 h3 hHR
    split at h
    · exact ⟨fun r => (n.labels.zip r.2).map (fun p =>
        if p.1 = some "1B" then compute1B ih i2 i3 ihr r.2 else p.2),
        congrArg NumFrame.rows (Except.ok.inj h).symm⟩
    · exact ⟨fun r => r.2 ++ [compute1B ih i2 i3 ihr r.2],
        congrArg NumFrame.rows (Except.ok.inj h).symm⟩
  · exact Except.noConfusion h

/-- Inversion of a successful `.loc[playerid]`: the result keeps the labels
and the cells of exactly the rows whose player-id index matches. -/
theorem locPid_ok_inv {playerid : String} {n : NumFrame} {out : OutFrame}
    (h : locPid playerid n = .ok out) :
    out = ⟨n.labels, (n.rows.filter (fun r => r.1.1 = some playerid)).map
      (fun r => ((r.1.2.1, r.1.2.2), r.2))⟩ := by
  unfold locPid at h
  split at h
  · exact (Except.ok.inj h).symm
  · exact Except.noConfusion h

/-! ## Claims -/

/-- Claim C3, counterexample.  The claim says every data row whose cell
count does not match the header length is excluded from the output.  The
source never compares cell counts: on `c3soup` the malformed `c3badTr` row
(7 cells against a 5-cell header) is padded, happens to carry the player id
at the `Player ID` column position, and appears in the returned aggregate
table as the `(zz, Away)` output row. -/
theorem C3_counterexample :
    c3badTr.length = 7 ∧
    (c3headerTr.filter (fun c => c.isHeaderCell)).length = 5 ∧
    get_splits "p1" (some 2024) false false c3soup = .ok (.one c3out) ∧
    ((some "zz", some "Away"),
      [some (⟨5, 0⟩ : PyNum), some ⟨1, 0⟩, some ⟨0, 0⟩, some ⟨1, 0⟩,
       some ⟨3, 0⟩]) ∈ c3out.rows :=
  ⟨by decide, by decide, by decide, by decide⟩

/-- Claim C3, amended.  The pipeline applies no cell-count check at all: a
raw row (other than the first headings row) survives into the final
aggregate table exactly when its padded cell at the `Split` column position
differs from `"Split"` and its padded cell at the `Player ID` column
position equals the requested player id — its own length never matters, and
no length mismatch raises. -/
theorem C3_row_retention (playerid : String) (raw : List RawRow)
    (f : RawFrame) (ip isp : Nat) (out : OutFrame)
    (hf : mkFrame raw = .ok f)
    (hip : findCol f.labels "Player ID" = some ip)
    (hisp : findCol f.labels "Split" = some isp)
    (h : assembleData playerid raw = .ok out) :
    out.rows.length = (f.rows.filter (fun r =>
      ¬ cellAt r isp = some "Split" ∧ cellAt r ip = some playerid)).length := by
  unfold assembleData at h
  simp only [bind, Except.bind] at h
  rw [hf] at h
  dsimp only at h
  cases hg : setIndex3 f with
  | error e => rw [hg] at h; exact Except.noConfusion h
  | ok g =>
    rw [hg] at h
    dsimp only at h
    cases hg2 : dropSplitRows g with
    | error e => rw [hg2] at h; exact Except.noConfusion h
    | ok g2 =>
      rw [hg2] at h
      dsimp only at h
      cases hn3 : add1B (dropEmptyCols (coerceFrame g2)) with
      | error e => rw [hn3] at h; exact Except.noConfusion h
      | ok n3 =>
        rw [hn3] at h
        dsimp only at h
        obtain ⟨ip', it', isp', hip', hit', hisp', hgeq⟩ := setIndex3_ok_inv hg
        rw [hip] at hip'
        rw [hisp] at hisp'
        obtain rfl : ip = ip' := Option.some.inj hip'
        obtain rfl : isp = isp' := Option.some.inj hisp'
        have hout := locPid_ok_inv h
        obtain ⟨φ, hφ⟩ := add1B_rows_inv hn3
        have hg2eq := dropSplitRows_ok_inv hg2
        subst hgeq
        subst hg2eq
        subst hout
        simp only [dropEmptyCols, coerceFrame, keptCols, List.map_map,
          List.length_map, List.filter_map, List.filter_filter] at hφ ⊢
        rw [hφ]
        simp only [List.filter_map, List.length_map, List.map_map,
          List.filter_filter]
        congr 1
        apply List.filter_congr
        intro r hr
        simp only [Function.comp]
        rw [Bool.decide_and, Bool.and_comm]

/-- Claim C3, witness: on `c3raw` the output row count equals the count of
raw rows passing the two cell tests (both data rows, the malformed one
included). -/
theorem C3_witness :
    c3out.rows.length = (c3frame.rows.filter (fun r =>
      ¬ cellAt r 0 = some "Split" ∧ cellAt r 6 = some "p1")).length :=
  C3_row_retention "p1" c3raw c3frame 6 0 c3out (by decide) (by decide)
    (by decide) (by decide)

/-- Claim C4, counterexample.  The claim says a column containing any
non-numeric, non-empty value is left as text, its values unaltered.  The
source coerces with `errors='coerce'` (line 133), which converts each value
independently: on `c4soup` the `Notes` column holds `"abc"` and `"5"`; in
the output the `"abc"` cell has become NA (`none`) and `"5"` has become the
number 5 — the mixed column is not left as text. -/
theorem C4_counterexample :
    get_splits "p1" (some 2024) false false c4soup = .ok (.one c4out) ∧
    findCol c4out.labels "Notes" = some 4 ∧
    ((some "Home", some "Home"),
      [some (⟨1, 0⟩ : PyNum), some ⟨0, 0⟩, some ⟨0, 0⟩, some ⟨0, 0⟩, none,
       some ⟨1, 0⟩]) ∈ c4out.rows :=
  ⟨by decide, by decide, by decide⟩

/-- Claim C4, amended.  Line 133 coerces every cell of every column
independently (non-numeric and empty values become NA), and line 134 then
drops exactly the columns whose coerced cells are all NA: every column
surviving that stage retains at least one numeric cell. -/
theorem C4_column_drop (g : IndexedFrame) (j : Nat)
    (hj : j < (dropEmptyCols (coerceFrame g)).labels.length) :
    ∃ r ∈ (dropEmptyCols (coerceFrame g)).rows,
      (r.2.getD j none).isSome = true := by
  have hjk : j < (keptCols (coerceFrame g)).length := by
    simpa [dropEmptyCols] using hj
  have hmem : (keptCols (coerceFrame g))[j] ∈ keptCols (coerceFrame g) :=
    List.getElem_mem hjk
  have hpred := (List.mem_filter.mp (by simpa only [keptCols] using hmem)).2
  obtain ⟨r, hrmem, hrs⟩ := List.any_eq_true.mp hpred
  refine ⟨(r.1, (keptCols (coerceFrame g)).map (fun i => r.2.getD i none)),
    ?_, ?_⟩
  · simp only [dropEmptyCols]
    exact List.mem_map.mpr ⟨r, hrmem, rfl⟩
  · rw [List.getD_eq_getElem?_getD, List.getElem?_map,
      List.getElem?_eq_getElem hjk]
    exact hrs

/-- Claim C4, witness: a one-column frame whose single coerced value is
numeric keeps that column with its numeric cell. -/
theorem C4_witness :
    ∃ r ∈ (dropEmptyCols (coerceFrame
        ⟨[some "H"], [((some "p", some "t", some "s"), [some "3"])]⟩)).rows,
      (r.2.getD 0 none).isSome = true :=
  C4_column_drop ⟨[some "H"], [((some "p", some "t", some "s"), [some "3"])]⟩
    0 (by decide)

/-- Every row of `dropEmptyCols f` has exactly as many cells as the frame
has labels. -/
theorem dropEmptyCols_wf (f : NumFrame) :
    ∀ r ∈ (dropEmptyCols f).rows,
      r.2.length = (dropEmptyCols f).labels.length := by
  intro r hr
  simp only [dropEmptyCols] at hr ⊢
  obtain ⟨r0, h0, rfl⟩ := List.mem_map.mp hr
  simp

/-- A label found in the left part of an appended label list is found at the
same position in the whole. -/
theorem findCol_append_left {l1 l2 : List (Option String)} {name : String}
    {i : Nat} (h : findCol l1 name = some i) :
    findCol (l1 ++ l2) name = some i := by
  unfold findCol at h ⊢
  rw [List.findIdx?_append, h]
  rfl

/-- A label absent from the left part of an appended label list is looked up
in the right part, with shifted position. -/
theorem findCol_append_none {l1 l2 : List (Option String)} {name : String}
    (h : findCol l1 name = none) :
    findCol (l1 ++ l2) name = (findCol l2 name).map (· + l1.length) := by
  unfold findCol at h ⊢
  rw [List.findIdx?_append, h]
  rfl

/-- `compute1B` only reads the four source positions. -/
theorem compute1B_congr {ih i2 i3 ihr : Nat} {a b : List (Option PyNum)}
    (hh : a.getD ih none = b.getD ih none)
    (hd : a.getD i2 none = b.getD i2 none)
    (ht : a.getD i3 none = b.getD i3 none)
    (hr : a.getD ihr none = b.getD ihr none) :
    compute1B ih i2 i3 ihr a = compute1B ih i2 i3 ihr b := by
  unfold compute1B
  rw [hh, hd, ht, hr]

/-- After a successful `add1B` on a width-consistent frame, the cell in the
first `'1B'` column of every row equals the `H − 2B − 3B − HR` value
computed from that row's own cells. -/
theorem add1B_cell {n n3 : NumFrame} (h : add1B n = .ok n3)
    (hwf : ∀ r ∈ n.rows, r.2.length = n.labels.length)
    {ih i2 i3 ihr i1 : Nat}
    (hH : findCol n3.labels "H" = some ih)
    (h2B : findCol n3.labels "2B" = some i2)
    (h3B : findCol n3.labels "3B" = some i3)
    (hHR : findCol n3.labels "HR" = some ihr)
    (h1B : findCol n3.labels "1B" = some i1) :
    ∀ r ∈ n3.rows, r.2.getD i1 none = compute1B ih i2 i3 ihr r.2 := by
  unfold add1B at h
  split at h
  case h_2 => exact Except.noConfusion h
  rename_i ih' i2' i3' ihr' hH' h2' h3' hHR'
  split at h
  · -- an existing '1B' column is overwritten in place
    injection h with hfrm
    subst hfrm
    dsimp only at hH h2B h3B hHR h1B
    have eih : ih = ih' := Option.some.inj (hH.symm.trans hH')
    have ei2 : i2 = i2' := Option.some.inj (h2B.symm.trans h2')
    have ei3 : i3 = i3' := Option.some.inj (h3B.symm.trans h3')
    have eihr : ihr = ihr' := Option.some.inj (hHR.symm.trans hHR')
    subst eih; subst ei2; subst ei3; subst eihr
    intro r' hr'
    obtain ⟨r, hr, rfl⟩ := List.mem_map.mp hr'
    dsimp only
    have hlen : r.2.length = n.labels.length := hwf r hr
    have hzlen : (n.labels.zip r.2).length = n.labels.length := by
      rw [List.length_zip, hlen]; exact Nat.min_self _
    have hcell : ∀ ix : Nat, ix < n.labels.length →
        ((n.labels.zip r.2).map (fun p =>
          if p.1 = some "1B" then compute1B ih i2 i3 ihr r.2 else p.2)).getD
            ix none =
        (if n.labels.getD ix none = some "1B" then
          compute1B ih i2 i3 ihr r.2 else r.2.getD ix none) := by
      intro ix hix
      have hzix : ix < (n.labels.zip r.2).length := by rw [hzlen]; exact hix
      rw [List.getD_eq_getElem?_getD, List.getElem?_map,
        List.getElem?_eq_getElem hzix, List.getElem_zip]
      rw [List.getD_eq_getElem?_getD n.labels,
        List.getElem?_eq_getElem hix,
        List.getD_eq_getElem?_getD r.2,
        List.getElem?_eq_getElem (hlen ▸ hix)]
      rfl
    obtain ⟨hi1lt, hi1lab⟩ := findCol_spec h1B
    obtain ⟨hihlt, hihlab⟩ := findCol_spec hH
    obtain ⟨hi2lt, hi2lab⟩ := findCol_spec h2B
    obtain ⟨hi3lt, hi3lab⟩ := findCol_spec h3B
    obtain ⟨hihrlt, hihrlab⟩ := findCol_spec hHR
    rw [hcell i1 hi1lt, hi1lab, if_pos rfl]
    have harg : compute1B ih i2 i3 ihr ((n.labels.zip r.2).map (fun p =>
        if p.1 = some "1B" then compute1B ih i2 i3 ihr r.2 else p.2)) =
        compute1B ih i2 i3 ihr r.2 := by
      apply compute1B_congr
      · rw [hcell ih hihlt, hihlab]; simp
      · rw [hcell i2 hi2lt, hi2lab]; simp
      · rw [hcell i3 hi3lt, hi3lab]; simp
      · rw [hcell ihr hihrlt, hihrlab]; simp
    rw [harg]
  · -- no '1B' column exists: one is appended at the end
    rename_i hnone
    injection h with hfrm
    subst hfrm
    dsimp only at hH h2B h3B hHR h1B
    have hnone2 : findCol n.labels "1B" = none :=
      Option.not_isSome_iff_eq_none.mp hnone
    have eih : ih = ih' :=
      Option.some.inj (hH.symm.trans (findCol_append_left hH'))
    have ei2 : i2 = i2' :=
      Option.some.inj (h2B.symm.trans (findCol_append_left h2'))
    have ei3 : i3 = i3' :=
      Option.some.inj (h3B.symm.trans (findCol_append_left h3'))
    have eihr : ihr = ihr' :=
      Option.some.inj (hHR.symm.trans (findCol_append_left hHR'))
    subst eih; subst ei2; subst ei3; subst eihr
    have hi1 : i1 = n.labels.length := by
      have h5 :=
        (@findCol_append_none n.labels [some "1B"] "1B" hnone2).symm.trans h1B
      simp [findCol] at h5
      omega
    intro r' hr'
    obtain ⟨r, hr, rfl⟩ := List.mem_map.mp hr'
    dsimp only
    have hlen : r.2.length = n.labels.length := hwf r hr
    have hend : (r.2 ++ [compute1B ih i2 i3 ihr r.2]).getD i1 none =
        compute1B ih i2 i3 ihr r.2 := by
      rw [List.getD_eq_getElem?_getD,
        List.getElem?_append_right (by omega)]
      have hz : i1 - r.2.length = 0 := by omega
      rw [hz]
      rfl
    have hkeep : ∀ ix : Nat, ix < n.labels.length →
        (r.2 ++ [compute1B ih i2 i3 ihr r.2]).getD ix none =
          r.2.getD ix none :=
      fun ix hix => List.getD_append _ _ _ _ (by omega)
    rw [hend]
    refine (compute1B_congr ?_ ?_ ?_ ?_).symm
    · exact hkeep ih (findCol_spec hH').1
    · exact hkeep i2 (findCol_spec h2').1
    · exact hkeep i3 (findCol_spec h3').1
    · exact hkeep ihr (findCol_spec hHR').1

/-- Claim C5, counterexample.  The claim says rows whose `Hits`/`Doubles`/
`Triples`/`HomeRuns` inputs are absent leave `Singles` unset without
raising.  On `c5soup` the scraped table has no `HR` column at all, so
`data['HR']` on line 135 raises a KeyError instead of leaving the synthetic
column unset. -/
theorem C5_counterexample :
    get_splits "p1" (some 2024) false false c5soup = .error .keyError :=
  by decide

/-- Claim C5, amended.  When the assembled aggregate table carries all four
columns `H`, `2B`, `3B`, `HR` (and the synthetic `1B`), every output row's
`1B` cell equals `H − 2B − 3B − HR` computed from that row's own cells, with
pandas NA propagation: the cell is the numeric difference when all four
inputs are numeric and NA when any input is NA, and no error is raised.
When one of the four columns is absent from the assembled table (never
scraped, or dropped as all-NA), the operation instead raises a KeyError. -/
theorem C5_singles_column (playerid : String) (raw : List RawRow)
    (out : OutFrame) (ih i2 i3 ihr i1 : Nat)
    (h : assembleData playerid raw = .ok out)
    (hH : findCol out.labels "H" = some ih)
    (h2B : findCol out.labels "2B" = some i2)
    (h3B : findCol out.labels "3B" = some i3)
    (hHR : findCol out.labels "HR" = some ihr)
    (h1B : findCol out.labels "1B" = some i1) :
    ∀ r ∈ out.rows, r.2.getD i1 none = compute1B ih i2 i3 ihr r.2 := by
  unfold assembleData at h
  simp only [bind, Except.bind] at h
  cases hf : mkFrame raw with
  | error e => rw [hf] at h; exact Except.noConfusion h
  | ok f =>
    rw [hf] at h; dsimp only at h
    cases hg : setIndex3 f with
    | error e => rw [hg] at h; exact Except.noConfusion h
    | ok g =>
      rw [hg] at h; dsimp only at h
      cases hg2 : dropSplitRows g with
      | error e => rw [hg2] at h; exact Except.noConfusion h
      | ok g2 =>
        rw [hg2] at h; dsimp only at h
        cases hn3 : add1B (dropEmptyCols (coerceFrame g2)) with
        | error e => rw [hn3] at h; exact Except.noConfusion h
        | ok n3 =>
          rw [hn3] at h; dsimp only at h
          have hout := locPid_ok_inv h
          subst hout
          dsimp only at hH h2B h3B hHR h1B ⊢
          intro r' hr'
          obtain ⟨r3, hr3mem, rfl⟩ := List.mem_map.mp hr'
          dsimp only
          exact add1B_cell hn3 (dropEmptyCols_wf _) hH h2B h3B hHR h1B r3
            (List.mem_filter.mp hr3mem).1

/-- Claim C5, witness: on `c5wraw` the row with non-numeric `H` gets an NA
`1B` cell — `compute1B` applied to its own cells — without raising. -/
theorem C5_witness :
    ([none, some (⟨1, 0⟩ : PyNum), some ⟨0, 0⟩, some ⟨2, 0⟩,
      none] : List (Option PyNum)).getD 4 none =
      compute1B 0 1 2 3
        [none, some ⟨1, 0⟩, some ⟨0, 0⟩, some ⟨2, 0⟩, none] :=
  C5_singles_column "p1" c5wraw c5wout 0 1 2 3 4 (by decide) (by decide)
    (by decide) (by decide) (by decide) (by decide)
    ((some "Home", some "Away"),
      [none, some ⟨1, 0⟩, some ⟨0, 0⟩, some ⟨2, 0⟩, none])
    (by decide)

/-- Claim C1, counterexample.  The claim says a fetch whose HTTP response has
a non-success status raises a `FetchError`.  Against a transport that answers
every request with status 404, `get_split_soup` raises nothing: it returns
the parsed response body. -/
theorem C1_counterexample :
    get_split_soup c1transport404 "troutmi01" none false = .ok c1soup := rfl

/-- Claim C1, amended.  `get_split_soup` never inspects the HTTP status:
whenever the transport returns a response — whatever its status — the
response body is parsed and returned as the soup; no `FetchError` type
exists in the source, and transport exceptions propagate unwrapped. -/
theorem C1_fetch_ignores_status
    (transport : String → Except String HttpResponse) (playerid : String)
    (year : Option Int) (pitching_splits : Bool) (resp : HttpResponse)
    (h : transport (buildUrl playerid year pitching_splits) = .ok resp) :
    get_split_soup transport playerid year pitching_splits = .ok resp.body := by
  simp [get_split_soup, h]

/-- Claim C1, witness: a status-500 response is likewise returned as parsed
markup. -/
theorem C1_witness :
    get_split_soup c1transport500 "abc" (some 2024) true = .ok c1soup :=
  C1_fetch_ignores_status c1transport500 "abc" (some 2024) true ⟨500, c1soup⟩ rfl

/-- Claim C2, amended.  `get_split_soup` performs no throttling: its
operation trace contains no timestamp consultation and no sleep, so the
thread-suspension time mandated across any number of consecutive fetches is
zero — no minimum end-to-end duration is enforced. -/
theorem C2_no_throttle (playerid : String) (year : Option Int)
    (pitching_splits : Bool) (n : Nat) :
    consecutiveFetchSleep playerid year pitching_splits n = 0 := by
  induction n with
  | zero => rfl
  | succ k ih =>
    unfold consecutiveFetchSleep at ih ⊢
    rw [List.replicate_succ, List.flatten_cons]
    unfold mandatedSleep at ih ⊢
    rw [List.map_append, List.sum_append, ih]
    rfl

/-- Claim C2, counterexample.  The claim requires `N = 2` consecutive fetches
to take at least `(2 - 1) * 60 / 10 = 6` seconds end-to-end; the code
mandates zero seconds of suspension, so with a fast transport the two
requests complete in less than the required interval. -/
theorem C2_counterexample :
    consecutiveFetchSleep "troutmi01" none false 2 = 0 ∧
    ¬ 6 ≤ consecutiveFetchSleep "troutmi01" none false 2 := by
  constructor
  · rfl
  · intro h
    have h0 : consecutiveFetchSleep "troutmi01" none false 2 = 0 := rfl
    omega

/-- Claim C8, counterexample.  The claim says missing biography fragments
yield empty/absent field values rather than a fault; with only two surviving
fragments the source's `fv[3]` raises IndexError. -/
theorem C8_counterexample : get_player_info c8soup = .error .indexError := rfl

/-- Claim C8, amended.  The extractor takes the surviving fragments at
0-indexed positions 1, 3 and 5 as Position, Bats and Throws when at least six
fragments survive; with fewer than six it raises IndexError instead of
yielding empty values. -/
theorem C8_bio_positional (soup : Soup)
    (h : 6 ≤ (fvOf soup.bioFragments).length) :
    get_player_info soup =
      .ok ⟨(fvOf soup.bioFragments).getD 1 "",
           (fvOf soup.bioFragments).getD 3 "",
           (fvOf soup.bioFragments).getD 5 ""⟩ := by
  unfold get_player_info
  rcases hfv : fvOf soup.bioFragments with
    _ | ⟨a, _ | ⟨b, _ | ⟨c, _ | ⟨d, _ | ⟨e, _ | ⟨f, rest⟩⟩⟩⟩⟩⟩ <;>
    rw [hfv] at h <;> simp_all

/-- Claim C8, witness: a six-fragment biography yields the 2nd, 4th and 6th
fragments. -/
theorem C8_witness : get_player_info c8soupW = .ok ⟨"B", "D", "F"⟩ := by
  rw [C8_bio_positional c8soupW (by decide)]
  rfl

/-- Claim C9, counterexample.  On a page with no matching data tables the
splits operation raises a plain IndexError (from `data.iloc[0]` on the empty
frame), not the claimed dedicated `EmptyResultError` — though it indeed does
not return an empty table. -/
theorem C9_counterexample :
    get_splits "troutmi01" none false false c9soup = .error .indexError ∧
    PyError.indexError ≠ PyError.emptyResult :=
  ⟨rfl, by decide⟩

/-- Claim C9, amended.  When the fetched page contains no comment-embedded
table containers, `get_splits` raises a generic IndexError rather than
returning an empty table; no `EmptyResultError` exists in the source. -/
theorem C9_no_tables_index_error (playerid : String) (year : Option Int)
    (player_info pitching_splits : Bool) (soup : Soup)
    (h : soup.comments.flatten = []) :
    get_splits playerid year player_info pitching_splits soup =
      .error .indexError := by
  simp [get_splits, scrapeSoup, h, scrapeTables, assembleData, mkFrame,
    Except.bind, bind]

/-- Claim C9, witness: a page whose comments re-parse to no containers. -/
theorem C9_witness :
    get_splits "x" (some 2020) true true c9soupW = .error .indexError :=
  C9_no_tables_index_error "x" (some 2020) true true c9soupW rfl

/-- The tuple shape of a successful `get_splits` result is a function of the
two flags (lines 148-158). -/
theorem get_splits_shape (playerid : String) (year : Option Int)
    (player_info pitching_splits : Bool) (soup : Soup) (res : SplitsResult)
    (h : get_splits playerid year player_info pitching_splits soup = .ok res) :
    shapeOf res = (player_info, pitching_splits) := by
  simp only [get_splits, bind, Except.bind, pure, Except.pure] at h
  repeat' split at h
  all_goals injection h
  all_goals (rename_i h2; subst h2; simp_all [shapeOf])

/-- Claim C10.  Whenever `get_splits` returns successfully, the shape of the
returned value is exactly determined by the two flags: `(player_info=true,
pitching_splits=true)` gives the 3-tuple `(data, player_info_data,
level_data)` — aggregate first, info second, level table last, the field
order of `SplitsResult.withInfoLevel` — `(true, false)` the pair
`(data, player_info_data)`, `(false, true)` the pair `(data, level_data)`,
and `(false, false)` the aggregate frame alone. -/
theorem C10_result_shape (playerid : String) (year : Option Int)
    (player_info pitching_splits : Bool) (soup : Soup) (res : SplitsResult)
    (h : get_splits playerid year player_info pitching_splits soup = .ok res) :
    shapeOf res = (player_info, pitching_splits) :=
  get_splits_shape playerid year player_info pitching_splits soup res h

/-- Claim C10, witness: a successful pitching run with biography returns the
3-tuple shape. -/
theorem C10_witness :
    ∃ res, get_splits "p1" (some 2024) true true c10soup = .ok res ∧
      shapeOf res = (true, true) := by
  refine ⟨.withInfoLevel
    ⟨[some "H", some "2B", some "3B", some "HR", some "1B"],
     [((some "Home", some "Home"),
       [some ⟨3, 0⟩, some ⟨1, 0⟩, some ⟨0, 0⟩, some ⟨0, 0⟩, some ⟨2, 0⟩])]⟩
    ⟨"B", "D", "F"⟩
    ⟨[some "H"], [((some "Game Level", some "Aaa"), [some ⟨7, 0⟩])]⟩, ?_, ?_⟩
  · decide
  · exact C10_result_shape "p1" (some 2024) true true c10soup _ (by decide)

/-- Claim C7.  Routing by caption suffix: every row of `raw_data` comes from
a table whose stripped caption does not end in the literal suffix `"Level"`,
every row of `raw_level_data` from one whose caption does end in `"Level"`
(so rows never cross between the aggregate and level accumulations); and the
level table is part of the result only on pitching requests — with
`pitching_splits = false` a successful `get_splits` returns one of the two
aggregate-only shapes. -/
theorem C7_level_routing (year : Option Int) (playerid : String)
    (ts : List TableContainer) (A L : List RawRow)
    (h : scrapeTables year playerid ts = .ok (A, L)) :
    ((∀ r ∈ A, ∃ t ∈ ts, ∃ st rows, captionText t = .ok st ∧
        ¬ lastN st 5 = "Level" ∧
        tableContribution year playerid st t = .ok rows ∧ r ∈ rows) ∧
     (∀ r ∈ L, ∃ t ∈ ts, ∃ st rows, captionText t = .ok st ∧
        lastN st 5 = "Level" ∧
        tableContribution year playerid st t = .ok rows ∧ r ∈ rows)) ∧
    (∀ pid2 y2 pinfo soup res,
        get_splits pid2 y2 pinfo false soup = .ok res →
        (∃ d, res = .one d) ∨ (∃ d i, res = .withInfo d i)) := by
  constructor
  · induction ts generalizing A L with
    | nil =>
      unfold scrapeTables at h
      injection h with h2
      injection h2 with hA hL
      subst hA; subst hL
      exact ⟨fun r hr => absurd hr (List.not_mem_nil r),
             fun r hr => absurd hr (List.not_mem_nil r)⟩
    | cons t ts ih =>
      unfold scrapeTables at h
      cases hc : captionText t with
      | error e => rw [hc] at h; exact Except.noConfusion h
      | ok st =>
        rw [hc] at h
        dsimp only at h
        cases hcon : tableContribution year playerid st t with
        | error e => rw [hcon] at h; exact Except.noConfusion h
        | ok rows =>
          rw [hcon] at h
          dsimp only at h
          cases hrec : scrapeTables year playerid ts with
          | error e => rw [hrec] at h; exact Except.noConfusion h
          | ok pair =>
            obtain ⟨a, l⟩ := pair
            rw [hrec] at h
            dsimp only at h
            have ih2 := ih a l hrec
            by_cases hlev : lastN st 5 = "Level"
            · rw [if_pos hlev] at h
              injection h with h2
              injection h2 with hA hL
              subst hA; subst hL
              constructor
              · intro r hr
                obtain ⟨u, hu, rest⟩ := ih2.1 r hr
                exact ⟨u, List.mem_cons_of_mem t hu, rest⟩
              · intro r hr
                rcases List.mem_append.mp hr with hr | hr
                · exact ⟨t, List.mem_cons_self t ts, st, rows, hc, hlev, hcon, hr⟩
                · obtain ⟨u, hu, rest⟩ := ih2.2 r hr
                  exact ⟨u, List.mem_cons_of_mem t hu, rest⟩
            · rw [if_neg hlev] at h
              injection h with h2
              injection h2 with hA hL
              subst hA; subst hL
              constructor
              · intro r hr
                rcases List.mem_append.mp hr with hr | hr
                · exact ⟨t, List.mem_cons_self t ts, st, rows, hc, hlev, hcon, hr⟩
                · obtain ⟨u, hu, rest⟩ := ih2.1 r hr
                  exact ⟨u, List.mem_cons_of_mem t hu, rest⟩
              · intro r hr
                obtain ⟨u, hu, rest⟩ := ih2.2 r hr
                exact ⟨u, List.mem_cons_of_mem t hu, rest⟩
  · intro pid2 y2 pinfo soup res hres
    have hs := get_splits_shape pid2 y2 pinfo false soup res hres
    cases res with
    | one d => exact Or.inl ⟨d, rfl⟩
    | withInfo d i => exact Or.inr ⟨d, i, rfl⟩
    | withLevel d l => simp [shapeOf] at hs
    | withInfoLevel d i l => simp [shapeOf] at hs

/-- Claim C7, witness: on the concrete page with one aggregate and one level
table, the aggregate data row traces back to the non-`Level` table, the
level data row to the `Level` table, and a batting request on the same page
returns the single-frame shape. -/
theorem C7_witness :
    (∃ t ∈ [c7aggTable, c7levelTable], ∃ st rows, captionText t = .ok st ∧
        ¬ lastN st 5 = "Level" ∧
        tableContribution (some 2024) "p1" st t = .ok rows ∧
        (["Home", "3", "1", "0", "0", "Home", "p1"] : RawRow) ∈ rows) ∧
    (∃ t ∈ [c7aggTable, c7levelTable], ∃ st rows, captionText t = .ok st ∧
        lastN st 5 = "Level" ∧
        tableContribution (some 2024) "p1" st t = .ok rows ∧
        (["Aaa", "7", "Game Level", "p1"] : RawRow) ∈ rows) ∧
    ((∃ d, c7res = .one d) ∨ (∃ d i, c7res = .withInfo d i)) := by
  have h := C7_level_routing (some 2024) "p1" [c7aggTable, c7levelTable]
    c7A c7L (by decide)
  exact ⟨h.1.1 _ (by decide), h.1.2 _ (by decide),
    h.2 "p1" (some 2024) false c7soup c7res (by decide)⟩

/-- Claim C6, counterexample.  The claim says no row originating from a
`By Inning` category — its header row included — appears in any output
table.  The source skips only the `<tr>`-derived rows of a `By Inning` table
(lines 103, 123); its headings row is appended to `raw_data` unconditionally
(line 115).  On `c6soup`, whose `By Inning` header starts with `Inning`
rather than `Split`, that headings row survives every later filter and
appears in the returned aggregate table (the second output row). -/
theorem C6_counterexample :
    get_splits "Player ID" (some 2024) false false c6soup = .ok (.one c6out) ∧
    ((some "Split Type", some "Inning"),
      ([none, none, none, none, none] : List (Option PyNum))) ∈ c6out.rows :=
  ⟨by decide, by decide⟩

/-- Claim C6, amended.  No `<tr>`-derived row (header `<tr>` or data `<tr>`)
of a `By Inning` table is ever appended to the raw accumulation — the
table's contribution is exactly its headings row with the three bookkeeping
labels appended; that headings row can however survive into the output. -/
theorem C6_by_inning_rows_skipped (year : Option Int) (playerid : String)
    (t : TableContainer) (hs : List String)
    (hh : tableHeadings year t = .ok hs) :
    tableContribution year playerid "By Inning" t =
      .ok [hs ++ ["Split Type", "Player ID", "1B"]] := by
  simp [tableContribution, hh]

/-- Claim C6, witness: the `By Inning` table of `c6soup` contributes its
headings row only. -/
theorem C6_witness :
    tableContribution (some 2024) "Player ID" "By Inning" c6inningTable =
      .ok [["Inning", "H", "2B", "3B", "HR", "Split Type", "Player ID", "1B"]] :=
  C6_by_inning_rows_skipped (some 2024) "Player ID" c6inningTable
    ["Inning", "H", "2B", "3B", "HR"] rfl

end BBRef
